import Mathlib

/-
Shallow embedding of pkg/controllers/execution/execution_controller.go.

External collaborators (the Kubernetes API client, the member-cluster
informer cache, the remote object gateway "ObjectWatcher", the status
persistence layer) are modelled as outcome oracles: each external call the
controller would make is given its result up front, and the embedded
functions return, besides their Go return values, a trace of the remote
operations they issued.  Logging and fire-and-forget per-object event
emission carry no state and are not modelled; the one event the reconciler
itself records per sync invocation (in syncWork) is.
-/

namespace Execution

/-- Outcome of a Kubernetes API call that failed.  The flags record what the
predicates apierrors.IsNotFound and apierrors.IsConflict would report on the
returned error; msg is the rendering of the error message. -/
structure ApiError where
  notFound : Bool
  conflict : Bool
  msg : String
deriving DecidableEq, Repr

/-- A deserialized workload object (unstructured.Unstructured), reduced to
the parts the controller reads or writes: an identity and its label map. -/
structure Workload where
  name : String
  labels : List (String × String)
deriving DecidableEq, Repr

/-- An object as read from the member-cluster informer cache; opaque here,
it is only ever passed back to the gateway as the base of an update. -/
abbrev ClusterObj := String

/-- The label key workv1alpha2.WorkPermanentIDLabel. -/
def workPermanentIDLabel : String := "work.karmada.io/permanent-id"

/-- util.GetLabelValue: the value stored for the key, or the empty string
when the key is absent. -/
def getLabelValue (labels : List (String × String)) (key : String) : String :=
  match labels.find? (fun p => p.1 = key) with
  | some p => p.2
  | none => ""

/-- util.MergeLabel: bind the key to the value in the label map, replacing
any existing binding of the same key. -/
def mergeLabel (w : Workload) (key value : String) : Workload :=
  { w with labels := (w.labels.filter (fun p => p.1 ≠ key)) ++ [(key, value)] }

instance {α β : Type} [DecidableEq α] [DecidableEq β] : DecidableEq (Except α β) := by
  intro a b
  cases a <;> cases b <;> simp only [Except.error.injEq, Except.ok.injEq, reduceCtorEq] <;>
    infer_instance

/-- One manifest of a Work, bundled with the outcomes of every external call
the controller can make on its behalf: the result of deserializing its raw
bytes (a pure function of those bytes), the federated-key computation, the
member-cluster cache lookup, and the results of the remote Create, Update
and Delete calls. -/
structure ManifestEnv where
  unmarshal : Except String Workload
  fedKeyErr : Option String
  cacheLookup : Except ApiError ClusterObj
  createErr : Option String
  updateErr : Option String
  deleteErr : Option String
deriving DecidableEq, Repr

/-- The Work record: namespace, name, deletion marker, finalizer list,
labels, and the ordered manifest sequence. -/
structure Work where
  ns : String
  name : String
  deletionTimestampSet : Bool
  finalizers : List String
  labels : List (String × String)
  manifests : List ManifestEnv
deriving DecidableEq, Repr

/-- A remote operation issued through the object gateway against the named
member cluster. -/
inductive RemoteOp where
  | create (cluster : String) (w : Workload)
  | update (cluster : String) (w : Workload) (base : ClusterObj)
  | delete (cluster : String) (w : Workload)
deriving DecidableEq, Repr

/-- tryCreateOrUpdateWorkload: compute the federated key; look the workload
up in the member-cluster cache; on a NotFound lookup error create it
remotely, on any other lookup error abort with that error, and on a cache
hit update it remotely with the cached object as the base.  Returns the
remote operations issued and the error returned to the caller. -/
def tryCreateOrUpdateWorkload (m : ManifestEnv) (cluster : String) (w : Workload) :
    List RemoteOp × Option String :=
  match m.fedKeyErr with
  | some e => ([], some e)
  | none =>
    match m.cacheLookup with
    | .error apiErr =>
      if apiErr.notFound = false then
        ([], some apiErr.msg)
      else
        ([RemoteOp.create cluster w], m.createErr)
    | .ok clusterObj =>
      ([RemoteOp.update cluster w clusterObj], m.updateErr)

/-- The body of the manifest loop in syncToClusters, for one manifest: on a
deserialization failure the failure is the per-manifest error; otherwise the
permanent-id label of the owning Work is merged onto the workload and
tryCreateOrUpdateWorkload runs.  Returns the ops issued and the
per-manifest error, when one occurred. -/
def syncManifestStep (cluster : String) (workLabels : List (String × String))
    (m : ManifestEnv) : List RemoteOp × Option String :=
  match m.unmarshal with
  | .error e => ([], some e)
  | .ok workload =>
    tryCreateOrUpdateWorkload m cluster
      (mergeLabel workload workPermanentIDLabel (getLabelValue workLabels workPermanentIDLabel))

/-- The manifest loop of syncToClusters: every manifest is visited in
sequence order, a per-manifest failure is appended to the error list and the
loop continues with the next manifest.  Returns the concatenated ops, the
error list in sequence order, and syncSucceedNum. -/
def applyLoop (cluster : String) (workLabels : List (String × String)) :
    List ManifestEnv → List RemoteOp × List String × Nat
  | [] => ([], [], 0)
  | m :: rest =>
    let step := syncManifestStep cluster workLabels m
    let tail := applyLoop cluster workLabels rest
    match step.2 with
    | some e => (step.1 ++ tail.1, e :: tail.2.1, tail.2.2)
    | none => (step.1 ++ tail.1, tail.2.1, tail.2.2 + 1)

/-- Distinct messages of an error list, first occurrence order, as the
aggregate error rendering of k8s.io/apimachinery/pkg/util/errors walks them. -/
def dedupMsgs (msgs : List String) : List String :=
  msgs.foldl (fun acc e => if e ∈ acc then acc else acc ++ [e]) []

/-- Rendering of errors.NewAggregate(errs).Error(): a single collected error
renders as its own message; several render as the comma-joined distinct
messages, bracketed when more than one distinct message remains. -/
def aggErrorMsg (errs : List String) : String :=
  match errs with
  | [] => ""
  | [e] => e
  | _ =>
    match dedupMsgs errs with
    | [] => ""
    | [e] => e
    | us => "[" ++ String.intercalate ", " us ++ "]"

/-- A status condition as written by updateAppliedCondition.  The
last-transition timestamp is wall-clock data and is not modelled. -/
structure WorkCondition where
  condType : String
  status : String
  reason : String
  message : String
deriving DecidableEq, Repr

/-- The condition type workv1alpha1.WorkApplied. -/
def workApplied : String := "Applied"

/-- metav1.ConditionTrue. -/
def conditionTrue : String := "True"

/-- metav1.ConditionFalse. -/
def conditionFalse : String := "False"

/-- Steps of retry.DefaultRetry in client-go. -/
def defaultRetrySteps : Nat := 5

/-- Loop of retry.RetryOnConflict over an oracle giving the outcome of each
successive persistence attempt: success stops the loop, a non-conflict error
is returned at once, a conflict consumes one step of the budget, and an
exhausted budget returns the last conflict error seen. -/
def retryOnConflictAux (f : Nat → Option ApiError) :
    Nat → Nat → Option ApiError → Option ApiError
  | 0, _, last => last
  | steps + 1, i, _ =>
    match f i with
    | none => none
    | some e =>
      if e.conflict then retryOnConflictAux f steps (i + 1) (some e) else some e

/-- retry.RetryOnConflict with the default retry budget. -/
def retryOnConflict (f : Nat → Option ApiError) : Option ApiError :=
  retryOnConflictAux f defaultRetrySteps 0 none

/-- updateAppliedCondition: build the new Applied condition and persist it
under retry-on-conflict (each attempt merges the condition and issues a
status update whose outcome the oracle gives; on a conflict the Work is
re-fetched and the attempt repeated).  Returns the condition requested and
the error surfaced to the caller, when any. -/
def updateAppliedCondition (f : Nat → Option ApiError)
    (status reason message : String) : WorkCondition × Option String :=
  let cond : WorkCondition := ⟨workApplied, status, reason, message⟩
  match retryOnConflict f with
  | none => (cond, none)
  | some e => (cond, some e.msg)

/-- The error value syncToClusters returns: either a plain error or the
aggregate errors.NewAggregate builds over the collected error list. -/
inductive SyncErr where
  | simple (msg : String)
  | aggregate (errs : List String)
deriving DecidableEq, Repr

/-- Result of syncToClusters: remote ops issued, the Applied condition it
asked the aggregator to persist, and the error returned. -/
structure SyncResult where
  ops : List RemoteOp
  cond : WorkCondition
  err : Option SyncErr
deriving DecidableEq, Repr

/-- syncToClusters: run the manifest loop; when any per-manifest error was
collected, set Applied to False with reason AppliedFailed and a message
counting successes over the total, appending a failed condition update to
the error list, and return the aggregate; otherwise set Applied to True with
reason AppliedSuccessful and return the condition update's error, if any. -/
def syncToClusters (f : Nat → Option ApiError) (cluster : String) (work : Work) :
    SyncResult :=
  let loop := applyLoop cluster work.labels work.manifests
  let errs := loop.2.1
  let syncSucceedNum := loop.2.2
  if 0 < errs.length then
    let total := work.manifests.length
    let message := "Failed to apply all manifests (" ++ toString syncSucceedNum
      ++ "/" ++ toString total ++ "): " ++ aggErrorMsg errs
    let u := updateAppliedCondition f conditionFalse "AppliedFailed" message
    match u.2 with
    | some e => ⟨loop.1, u.1, some (SyncErr.aggregate (errs ++ [e]))⟩
    | none => ⟨loop.1, u.1, some (SyncErr.aggregate errs)⟩
  else
    let u := updateAppliedCondition f conditionTrue "AppliedSuccessful"
      "Manifest has been successfully applied"
    match u.2 with
    | some e => ⟨loop.1, u.1, some (SyncErr.simple e)⟩
    | none => ⟨loop.1, u.1, none⟩

/-- Severity of a recorded Kubernetes event. -/
inductive EventType where
  | normal
  | warning
deriving DecidableEq, Repr

/-- A recorded event, reduced to severity and reason. -/
structure EventRec where
  etype : EventType
  reason : String
deriving DecidableEq, Repr

/-- events.EventReasonSyncWorkloadFailed. -/
def eventReasonSyncWorkloadFailed : String := "SyncFailed"

/-- events.EventReasonSyncWorkloadSucceed. -/
def eventReasonSyncWorkloadSucceed : String := "SyncSucceed"

/-- Result of syncWork: the sync outcome plus the one event the reconciler
records on the Work for this invocation. -/
structure SyncWorkResult where
  ops : List RemoteOp
  cond : WorkCondition
  events : List EventRec
  err : Option SyncErr
deriving DecidableEq, Repr

/-- syncWork: invoke syncToClusters, then record a warning event and return
the error on failure, or record a normal event and return nil on success. -/
def syncWork (f : Nat → Option ApiError) (cluster : String) (work : Work) :
    SyncWorkResult :=
  let r := syncToClusters f cluster work
  match r.err with
  | some e =>
    ⟨r.ops, r.cond, [⟨EventType.warning, eventReasonSyncWorkloadFailed⟩], some e⟩
  | none =>
    ⟨r.ops, r.cond, [⟨EventType.normal, eventReasonSyncWorkloadSucceed⟩], none⟩

/-- tryDeleteWorkload: walk the manifest sequence; a deserialization failure
returns at once, a remote delete is issued for each deserialized workload
and a delete failure returns at once; later manifests are not visited after
a failure.  Returns the delete ops issued and the error. -/
def tryDeleteWorkload (cluster : String) :
    List ManifestEnv → List RemoteOp × Option String
  | [] => ([], none)
  | m :: rest =>
    match m.unmarshal with
    | .error e => ([], some e)
    | .ok workload =>
      match m.deleteErr with
      | some e => ([RemoteOp.delete cluster workload], some e)
      | none =>
        let tail := tryDeleteWorkload cluster rest
        (RemoteOp.delete cluster workload :: tail.1, tail.2)

/-- The finalizer token util.ExecutionControllerFinalizer. -/
def executionControllerFinalizer : String := "karmada.io/execution-controller"

/-- controllerutil.ContainsFinalizer on the embedded Work. -/
def containsFinalizer (work : Work) (token : String) : Bool :=
  work.finalizers.contains token

/-- Result of removeFinalizer: whether a persistence update was issued, the
Work as left behind, and the error returned. -/
structure RemoveFinalizerResult where
  updateIssued : Bool
  work : Work
  err : Option String
deriving DecidableEq, Repr

/-- removeFinalizer: when the Work does not carry the execution-controller
finalizer, return success without touching the store; otherwise strip the
token and persist the Work, returning the update call's error. -/
def removeFinalizer (updateErr : Option String) (work : Work) :
    RemoveFinalizerResult :=
  if containsFinalizer work executionControllerFinalizer = false then
    ⟨false, work, none⟩
  else
    ⟨true,
     { work with
        finalizers := work.finalizers.filter (fun t => t ≠ executionControllerFinalizer) },
     updateErr⟩

/-- The Cluster record as this controller reads it: identity, readiness of
its Ready condition, and its deletion marker. -/
structure Cluster where
  name : String
  ready : Bool
  deletionTimestampSet : Bool
deriving DecidableEq, Repr

/-- Environment of one Reconcile invocation: the outcomes of loading the
Work, resolving the cluster name from the Work namespace, loading the
Cluster, the finalizer-removal persistence call, and the oracle for the
status-condition persistence attempts. -/
structure ReconcileEnv where
  getWork : Except ApiError Work
  clusterName : Except String String
  getCluster : Except String Cluster
  finalizerUpdateErr : Option String
  condOracle : Nat → Option ApiError

/-- Observable outcome of Reconcile: the error returned (the Result value
the source returns is always the empty Result, recorded here as a constant
requeue flag), the remote ops issued, events recorded, the Applied condition
requested when the synchronizer ran, and whether removeFinalizer was reached
and issued its persistence update. -/
structure ReconcileOutcome where
  err : Option String
  requeue : Bool
  ops : List RemoteOp
  events : List EventRec
  condRequested : Option WorkCondition
  removeFinalizerCalled : Bool
  finalizerUpdateIssued : Bool
deriving DecidableEq, Repr

/-- An outcome with no side effects and the given error. -/
def emptyOutcome (e : Option String) : ReconcileOutcome :=
  ⟨e, false, [], [], none, false, false⟩

/-- Message of the not-ready error fmt.Errorf produces in Reconcile. -/
def clusterNotReadyMsg (c : Cluster) : String :=
  "cluster(" ++ c.name ++ ") not ready"

/-- Rendering of the sync error as Reconcile returns it upward. -/
def renderSyncErr : SyncErr → String
  | .simple m => m
  | .aggregate errs => aggErrorMsg errs

/-- Reconcile: load the Work (NotFound is success), resolve cluster name and
Cluster; on the deletion branch run teardown when the cluster is ready and
then remove the finalizer, fail with a not-ready error when the cluster is
unready and not terminating, and skip straight to finalizer removal when the
unready cluster is itself terminating; on the non-deletion branch fail with
a not-ready error when the cluster is unready and otherwise run syncWork. -/
def Reconcile (env : ReconcileEnv) : ReconcileOutcome :=
  match env.getWork with
  | .error e => if e.notFound then emptyOutcome none else emptyOutcome (some e.msg)
  | .ok work =>
    match env.clusterName with
    | .error e => emptyOutcome (some e)
    | .ok clusterName =>
      match env.getCluster with
      | .error e => emptyOutcome (some e)
      | .ok cluster =>
        if work.deletionTimestampSet then
          if cluster.ready then
            match (tryDeleteWorkload clusterName work.manifests).2 with
            | some e =>
              ⟨some e, false, (tryDeleteWorkload clusterName work.manifests).1,
               [], none, false, false⟩
            | none =>
              ⟨(removeFinalizer env.finalizerUpdateErr work).err, false,
               (tryDeleteWorkload clusterName work.manifests).1, [], none, true,
               (removeFinalizer env.finalizerUpdateErr work).updateIssued⟩
          else if cluster.deletionTimestampSet = false then
            emptyOutcome (some (clusterNotReadyMsg cluster))
          else
            ⟨(removeFinalizer env.finalizerUpdateErr work).err, false, [], [], none,
             true, (removeFinalizer env.finalizerUpdateErr work).updateIssued⟩
        else
          if cluster.ready = false then
            emptyOutcome (some (clusterNotReadyMsg cluster))
          else
            ⟨(syncWork env.condOracle clusterName work).err.map renderSyncErr, false,
             (syncWork env.condOracle clusterName work).ops,
             (syncWork env.condOracle clusterName work).events,
             some (syncWork env.condOracle clusterName work).cond, false, false⟩

/-- Boolean test: does the teardown step for this manifest fail, either by a
deserialization failure or by a failing remote delete. -/
def deleteStepFailsB (m : ManifestEnv) : Bool :=
  match m.unmarshal with
  | .error _ => true
  | .ok _ => m.deleteErr.isSome

section Lemmas

lemma applyLoop_ops_flatten (c : String) (l : List (String × String))
    (ms : List ManifestEnv) :
    (applyLoop c l ms).1 = (ms.map fun m => (syncManifestStep c l m).1).flatten := by
  induction ms with
  | nil => rfl
  | cons m rest ih =>
    simp only [applyLoop, List.map_cons, List.flatten_cons]
    cases h : (syncManifestStep c l m).2 <;> simp [h, ih]

lemma applyLoop_errs_filterMap (c : String) (l : List (String × String))
    (ms : List ManifestEnv) :
    (applyLoop c l ms).2.1 = ms.filterMap fun m => (syncManifestStep c l m).2 := by
  induction ms with
  | nil => rfl
  | cons m rest ih =>
    simp only [applyLoop, List.filterMap_cons]
    cases h : (syncManifestStep c l m).2 <;> simp [h, ih]

lemma applyLoop_count (c : String) (l : List (String × String))
    (ms : List ManifestEnv) :
    (applyLoop c l ms).2.1.length + (applyLoop c l ms).2.2 = ms.length := by
  induction ms with
  | nil => rfl
  | cons m rest ih =>
    simp only [applyLoop, List.length_cons]
    cases h : (syncManifestStep c l m).2 <;>
      simp only [h, List.length_cons] <;> omega

lemma applyLoop_ops_append (c : String) (l : List (String × String))
    (ms1 ms2 : List ManifestEnv) :
    (applyLoop c l (ms1 ++ ms2)).1
      = (applyLoop c l ms1).1 ++ (applyLoop c l ms2).1 := by
  simp [applyLoop_ops_flatten]

lemma applyLoop_errs_append (c : String) (l : List (String × String))
    (ms1 ms2 : List ManifestEnv) :
    (applyLoop c l (ms1 ++ ms2)).2.1
      = (applyLoop c l ms1).2.1 ++ (applyLoop c l ms2).2.1 := by
  simp [applyLoop_errs_filterMap]

lemma applyLoop_succ_append (c : String) (l : List (String × String))
    (ms1 ms2 : List ManifestEnv) :
    (applyLoop c l (ms1 ++ ms2)).2.2
      = (applyLoop c l ms1).2.2 + (applyLoop c l ms2).2.2 := by
  have h1 := applyLoop_count c l (ms1 ++ ms2)
  have h2 := applyLoop_count c l ms1
  have h3 := applyLoop_count c l ms2
  have h4 := applyLoop_errs_append c l ms1 ms2
  have h5 : (applyLoop c l (ms1 ++ ms2)).2.1.length
      = (applyLoop c l ms1).2.1.length + (applyLoop c l ms2).2.1.length := by
    rw [h4, List.length_append]
  rw [List.length_append] at h1
  omega

lemma syncToClusters_fail_eq (f : Nat → Option ApiError) (c : String) (w : Work)
    (hpos : 0 < (applyLoop c w.labels w.manifests).2.1.length) :
    syncToClusters f c w =
      ⟨(applyLoop c w.labels w.manifests).1,
       ⟨workApplied, conditionFalse, "AppliedFailed",
        "Failed to apply all manifests ("
          ++ toString (applyLoop c w.labels w.manifests).2.2
          ++ "/" ++ toString w.manifests.length ++ "): "
          ++ aggErrorMsg (applyLoop c w.labels w.manifests).2.1⟩,
       some (SyncErr.aggregate
         ((applyLoop c w.labels w.manifests).2.1 ++
           (match retryOnConflict f with
            | some e => [e.msg]
            | none => [])))⟩ := by
  unfold syncToClusters
  simp only [updateAppliedCondition]
  cases hr : retryOnConflict f <;> simp [hpos, hr]

lemma syncToClusters_ok_eq (f : Nat → Option ApiError) (c : String) (w : Work)
    (hz : (applyLoop c w.labels w.manifests).2.1.length = 0) :
    syncToClusters f c w =
      ⟨(applyLoop c w.labels w.manifests).1,
       ⟨workApplied, conditionTrue, "AppliedSuccessful",
        "Manifest has been successfully applied"⟩,
       (match retryOnConflict f with
        | some e => some (SyncErr.simple e.msg)
        | none => none)⟩ := by
  unfold syncToClusters
  simp only [updateAppliedCondition]
  cases hr : retryOnConflict f <;> simp [hz, hr]

end Lemmas

/-- Claim C1: for a Work with N manifests of which exactly k fail to apply,
syncToClusters requests the Applied condition True with reason
AppliedSuccessful iff k is zero; for positive k it requests False with
reason AppliedFailed and a message reporting the succeeded count over the
total, and returns an aggregate error whose list starts with all k
per-manifest errors (followed by at most the condition-update error). -/
theorem syncToClusters_applied_iff (f : Nat → Option ApiError) (c : String)
    (w : Work) (k N : Nat)
    (hk : (applyLoop c w.labels w.manifests).2.1.length = k)
    (hN : w.manifests.length = N) :
    ((syncToClusters f c w).cond.status = conditionTrue ∧
      (syncToClusters f c w).cond.reason = "AppliedSuccessful" ↔ k = 0)
    ∧ (0 < k →
        (syncToClusters f c w).cond.status = conditionFalse ∧
        (syncToClusters f c w).cond.reason = "AppliedFailed" ∧
        (syncToClusters f c w).cond.message =
          "Failed to apply all manifests (" ++ toString (N - k) ++ "/" ++ toString N
            ++ "): " ++ aggErrorMsg (applyLoop c w.labels w.manifests).2.1 ∧
        ∃ extra, extra.length ≤ 1 ∧
          (syncToClusters f c w).err =
            some (SyncErr.aggregate
              ((applyLoop c w.labels w.manifests).2.1 ++ extra))) := by
  have hsum := applyLoop_count c w.labels w.manifests
  rcases Nat.eq_zero_or_pos k with hk0 | hk0
  · subst hk0
    rw [syncToClusters_ok_eq f c w (by omega)]
    refine ⟨by simp, by omega⟩
  · have hpos : 0 < (applyLoop c w.labels w.manifests).2.1.length := by omega
    rw [syncToClusters_fail_eq f c w hpos]
    constructor
    · constructor
      · rintro ⟨hc, -⟩
        exact absurd (show conditionFalse = conditionTrue from hc) (by decide)
      · intro h
        omega
    · intro _
      refine ⟨rfl, rfl, ?_, ?_⟩
      · have hsucc : (applyLoop c w.labels w.manifests).2.2 = N - k := by omega
        rw [hsucc, hN]
      · cases hr : retryOnConflict f with
        | none => exact ⟨[], by simp, by simp⟩
        | some e => exact ⟨[e.msg], by simp, by simp⟩

/-- Two-manifest Work whose first manifest applies (cache miss then create)
and whose second fails to deserialize; used to instantiate the C1 theorem. -/
def c1Work : Work :=
  ⟨"karmada-es-member1", "demo", false, [], [],
   [⟨Except.ok ⟨"w1", []⟩, none, Except.error ⟨true, false, "nf"⟩, none, none, none⟩,
    ⟨Except.error "bad bytes", none, Except.ok "obj", none, none, none⟩]⟩

/-- Concrete instance of the C1 theorem at a Work with two manifests, one of
which fails: k is 1 and N is 2, so the condition is False with reason
AppliedFailed and the message reports one success out of two. -/
theorem syncToClusters_applied_iff_witness :
    (((syncToClusters (fun _ => none) "member1" c1Work).cond.status = conditionTrue ∧
      (syncToClusters (fun _ => none) "member1" c1Work).cond.reason = "AppliedSuccessful"
      ↔ 1 = 0)
    ∧ (0 < 1 →
        (syncToClusters (fun _ => none) "member1" c1Work).cond.status = conditionFalse ∧
        (syncToClusters (fun _ => none) "member1" c1Work).cond.reason = "AppliedFailed" ∧
        (syncToClusters (fun _ => none) "member1" c1Work).cond.message =
          "Failed to apply all manifests (" ++ toString (2 - 1) ++ "/" ++ toString 2
            ++ "): " ++ aggErrorMsg (applyLoop "member1" c1Work.labels c1Work.manifests).2.1 ∧
        ∃ extra, extra.length ≤ 1 ∧
          (syncToClusters (fun _ => none) "member1" c1Work).err =
            some (SyncErr.aggregate
              ((applyLoop "member1" c1Work.labels c1Work.manifests).2.1 ++ extra)))) :=
  syncToClusters_applied_iff (fun _ => none) "member1" c1Work 1 2 rfl rfl

/-- Claim C2: syncToClusters visits every manifest of the Work in sequence
order regardless of earlier failures: its remote operations are exactly the
concatenation of each manifest's own operations, the recorded error list is
exactly the per-manifest failures in order, and every manifest is accounted
for either as a recorded failure or as a counted success. -/
theorem syncToClusters_processes_all (f : Nat → Option ApiError) (c : String)
    (w : Work) :
    (syncToClusters f c w).ops
      = (w.manifests.map fun m => (syncManifestStep c w.labels m).1).flatten
    ∧ (applyLoop c w.labels w.manifests).2.1
      = w.manifests.filterMap (fun m => (syncManifestStep c w.labels m).2)
    ∧ (applyLoop c w.labels w.manifests).2.1.length
        + (applyLoop c w.labels w.manifests).2.2 = w.manifests.length := by
  refine ⟨?_, applyLoop_errs_filterMap c w.labels w.manifests,
    applyLoop_count c w.labels w.manifests⟩
  have hops : (syncToClusters f c w).ops = (applyLoop c w.labels w.manifests).1 := by
    rcases Nat.eq_zero_or_pos (applyLoop c w.labels w.manifests).2.1.length with h | h
    · rw [syncToClusters_ok_eq f c w h]
    · rw [syncToClusters_fail_eq f c w h]
  rw [hops]
  exact applyLoop_ops_flatten c w.labels w.manifests

/-- Claim C6: with the federated key computed, a NotFound cache lookup leads
to a remote Create of the workload; any other lookup failure aborts the
manifest's sync with that error and issues no remote operation; a cache hit
leads to a remote Update with the cached counterpart as the base. -/
theorem tryCreateOrUpdateWorkload_cases (m : ManifestEnv) (c : String)
    (w : Workload) (hf : m.fedKeyErr = none) :
    (∀ e, m.cacheLookup = Except.error e → e.notFound = true →
      tryCreateOrUpdateWorkload m c w = ([RemoteOp.create c w], m.createErr))
    ∧ (∀ e, m.cacheLookup = Except.error e → e.notFound = false →
      tryCreateOrUpdateWorkload m c w = ([], some e.msg))
    ∧ (∀ obj, m.cacheLookup = Except.ok obj →
      tryCreateOrUpdateWorkload m c w = ([RemoteOp.update c w obj], m.updateErr)) := by
  refine ⟨?_, ?_, ?_⟩
  · intro e he hnf
    unfold tryCreateOrUpdateWorkload
    simp [hf, he, hnf]
  · intro e he hnf
    unfold tryCreateOrUpdateWorkload
    simp [hf, he, hnf]
  · intro obj hobj
    unfold tryCreateOrUpdateWorkload
    simp [hf, hobj]

/-- Manifest whose cache lookup reports NotFound, for the C6 witness. -/
def c6Manifest : ManifestEnv :=
  ⟨Except.ok ⟨"w6", []⟩, none, Except.error ⟨true, false, "not found"⟩, none, none, none⟩

/-- Concrete instance of the C6 theorem: a NotFound lookup leads to a remote
Create, and the other two branches hold vacuously or on their inputs. -/
theorem tryCreateOrUpdateWorkload_cases_witness :
    ((∀ e, c6Manifest.cacheLookup = Except.error e → e.notFound = true →
      tryCreateOrUpdateWorkload c6Manifest "member1" ⟨"w6", []⟩
        = ([RemoteOp.create "member1" ⟨"w6", []⟩], c6Manifest.createErr))
    ∧ (∀ e, c6Manifest.cacheLookup = Except.error e → e.notFound = false →
      tryCreateOrUpdateWorkload c6Manifest "member1" ⟨"w6", []⟩ = ([], some e.msg))
    ∧ (∀ obj, c6Manifest.cacheLookup = Except.ok obj →
      tryCreateOrUpdateWorkload c6Manifest "member1" ⟨"w6", []⟩
        = ([RemoteOp.update "member1" ⟨"w6", []⟩ obj], c6Manifest.updateErr))) :=
  tryCreateOrUpdateWorkload_cases c6Manifest "member1" ⟨"w6", []⟩ rfl

/-- Claim C7: when the Work does not carry the execution-controller
finalizer, removeFinalizer returns success without issuing a persistence
update and leaves the Work unchanged, so re-running the teardown path after
the finalizer was already removed is a no-op success. -/
theorem removeFinalizer_noop (u : Option String) (work : Work)
    (h : containsFinalizer work executionControllerFinalizer = false) :
    removeFinalizer u work = ⟨false, work, none⟩ := by
  unfold removeFinalizer
  simp [h]

/-- Work without the execution-controller finalizer, for the C7 witness. -/
def c7Work : Work := ⟨"karmada-es-member1", "demo", true, ["other"], [], []⟩

/-- Concrete instance of the C7 theorem: removing the finalizer from a Work
that does not carry it is a no-op success even when the persistence layer
would fail. -/
theorem removeFinalizer_noop_witness :
    removeFinalizer (some "update refused") c7Work = ⟨false, c7Work, none⟩ :=
  removeFinalizer_noop (some "update refused") c7Work rfl

/-- Claim C9: when every manifest applies but persisting the Applied=True
condition fails, syncToClusters returns that persistence error, and syncWork
records a warning event and reports the reconciliation as failed. -/
theorem syncWork_persist_failure (f : Nat → Option ApiError) (c : String)
    (w : Work) (e : ApiError)
    (hs : (applyLoop c w.labels w.manifests).2.1.length = 0)
    (hf : retryOnConflict f = some e) :
    (syncToClusters f c w).err = some (SyncErr.simple e.msg)
    ∧ (syncWork f c w).err = some (SyncErr.simple e.msg)
    ∧ (syncWork f c w).events
        = [⟨EventType.warning, eventReasonSyncWorkloadFailed⟩] := by
  have herr : (syncToClusters f c w).err = some (SyncErr.simple e.msg) := by
    rw [syncToClusters_ok_eq f c w hs, hf]
  refine ⟨herr, ?_, ?_⟩ <;> simp only [syncWork, herr]

/-- Single-manifest Work whose manifest applies cleanly, for the C9
witness. -/
def c9Work : Work :=
  ⟨"karmada-es-member1", "demo", false, [], [],
   [⟨Except.ok ⟨"w9", []⟩, none, Except.ok "cached", none, none, none⟩]⟩

/-- Concrete instance of the C9 theorem: one manifest updates successfully,
the status persistence fails with a non-conflict error, and syncWork reports
the failure with a warning event. -/
theorem syncWork_persist_failure_witness :
    (syncToClusters (fun _ => some ⟨false, false, "status update refused"⟩)
        "member1" c9Work).err
      = some (SyncErr.simple (ApiError.mk false false "status update refused").msg)
    ∧ (syncWork (fun _ => some ⟨false, false, "status update refused"⟩)
        "member1" c9Work).err
      = some (SyncErr.simple (ApiError.mk false false "status update refused").msg)
    ∧ (syncWork (fun _ => some ⟨false, false, "status update refused"⟩)
        "member1" c9Work).events
      = [⟨EventType.warning, eventReasonSyncWorkloadFailed⟩] :=
  syncWork_persist_failure (fun _ => some ⟨false, false, "status update refused"⟩)
    "member1" c9Work ⟨false, false, "status update refused"⟩ rfl rfl

lemma removeFinalizer_updateIssued_contains (u : Option String) (w : Work)
    (h : (removeFinalizer u w).updateIssued = true) :
    containsFinalizer w executionControllerFinalizer = true := by
  unfold removeFinalizer at h
  cases hc : containsFinalizer w executionControllerFinalizer
  · rw [hc] at h
    simp at h
  · rfl

/-- Claim C3: the reconciler only removes the finalizer after a teardown
that completed without error or under the terminating-cluster bypass.  In
particular a deletion-marked Work whose cluster is unready and not
terminating yields a not-ready error with no teardown and no finalizer
update; a failing teardown returns its error without reaching finalizer
removal; and any issued finalizer update implies the Work was
deletion-marked, carried the finalizer, and teardown succeeded or the
bypass applied. -/
theorem reconcile_finalizer_gate (env : ReconcileEnv) :
    (∀ work cn cluster,
        env.getWork = Except.ok work → work.deletionTimestampSet = true →
        env.clusterName = Except.ok cn → env.getCluster = Except.ok cluster →
        cluster.ready = false → cluster.deletionTimestampSet = false →
        Reconcile env = emptyOutcome (some (clusterNotReadyMsg cluster)))
    ∧ (∀ work cn cluster e,
        env.getWork = Except.ok work → work.deletionTimestampSet = true →
        env.clusterName = Except.ok cn → env.getCluster = Except.ok cluster →
        cluster.ready = true →
        (tryDeleteWorkload cn work.manifests).2 = some e →
        (Reconcile env).err = some e ∧
        (Reconcile env).removeFinalizerCalled = false ∧
        (Reconcile env).finalizerUpdateIssued = false)
    ∧ ((Reconcile env).finalizerUpdateIssued = true →
        ∃ work cn cluster,
          env.getWork = Except.ok work ∧ work.deletionTimestampSet = true ∧
          env.clusterName = Except.ok cn ∧ env.getCluster = Except.ok cluster ∧
          containsFinalizer work executionControllerFinalizer = true ∧
          ((cluster.ready = true ∧ (tryDeleteWorkload cn work.manifests).2 = none)
            ∨ (cluster.ready = false ∧ cluster.deletionTimestampSet = true))) := by
  refine ⟨?_, ?_, ?_⟩
  · intro work cn cluster hgw hdel hcn hgc hready hterm
    unfold Reconcile
    rw [hgw, hcn, hgc]
    simp [hdel, hready, hterm]
  · intro work cn cluster e hgw hdel hcn hgc hready htd
    unfold Reconcile
    rw [hgw, hcn, hgc]
    simp [hdel, hready, htd]
  · intro h
    unfold Reconcile at h
    cases hgw : env.getWork with
    | error e =>
      rw [hgw] at h
      cases hnf : e.notFound <;> simp [hnf, emptyOutcome] at h
    | ok work =>
      rw [hgw] at h
      cases hcn : env.clusterName with
      | error e1 =>
        rw [hcn] at h
        simp [emptyOutcome] at h
      | ok cname =>
        rw [hcn] at h
        cases hgc : env.getCluster with
        | error e2 =>
          rw [hgc] at h
          simp [emptyOutcome] at h
        | ok cluster =>
          rw [hgc] at h
          dsimp only at h
          cases hdel : work.deletionTimestampSet with
          | false =>
            rw [hdel] at h
            cases hready : cluster.ready <;> simp [hready, emptyOutcome] at h
          | true =>
            rw [hdel] at h
            cases hready : cluster.ready with
            | true =>
              rw [hready] at h
              cases htd : (tryDeleteWorkload cname work.manifests).2 with
              | some e3 =>
                rw [htd] at h
                simp at h
              | none =>
                rw [htd] at h
                simp at h
                exact ⟨work, cname, cluster, rfl, hdel, rfl, rfl,
                  removeFinalizer_updateIssued_contains _ _ h,
                  Or.inl ⟨hready, htd⟩⟩
            | false =>
              rw [hready] at h
              cases hterm : cluster.deletionTimestampSet with
              | false =>
                rw [hterm] at h
                simp [emptyOutcome] at h
              | true =>
                rw [hterm] at h
                simp at h
                exact ⟨work, cname, cluster, rfl, hdel, rfl, rfl,
                  removeFinalizer_updateIssued_contains _ _ h,
                  Or.inr ⟨hready, hterm⟩⟩

/-- Deletion-marked Work carrying the finalizer, for the C3 witness. -/
def c3Work : Work :=
  ⟨"karmada-es-member1", "demo", true, [executionControllerFinalizer], [], []⟩

/-- Environment whose cluster is unready and not terminating, for the C3
witness. -/
def c3Env : ReconcileEnv :=
  ⟨Except.ok c3Work, Except.ok "member1", Except.ok ⟨"member1", false, false⟩,
   none, fun _ => none⟩

/-- Concrete instance of the C3 theorem: with the target cluster unready and
not terminating, reconciling a deletion-marked Work performs no teardown,
returns the not-ready error and keeps the finalizer. -/
theorem reconcile_finalizer_gate_witness :
    Reconcile c3Env
      = emptyOutcome (some (clusterNotReadyMsg ⟨"member1", false, false⟩)) :=
  (reconcile_finalizer_gate c3Env).1 c3Work "member1" ⟨"member1", false, false⟩
    rfl rfl rfl rfl rfl rfl

/-- Claim C4: on the non-deletion branch an unready cluster makes Reconcile
return the not-ready error with no remote operation, no event and no
condition request — the workload synchronizer is never invoked. -/
theorem reconcile_notReady_noSync (env : ReconcileEnv) (work : Work)
    (cn : String) (cluster : Cluster)
    (h1 : env.getWork = Except.ok work)
    (h2 : work.deletionTimestampSet = false)
    (h3 : env.clusterName = Except.ok cn)
    (h4 : env.getCluster = Except.ok cluster)
    (h5 : cluster.ready = false) :
    Reconcile env = emptyOutcome (some (clusterNotReadyMsg cluster)) := by
  unfold Reconcile
  rw [h1, h3, h4]
  simp [h2, h5]

/-- Active Work with a manifest, for the C4 witness. -/
def c4Work : Work :=
  ⟨"karmada-es-member1", "demo", false, [executionControllerFinalizer], [],
   [⟨Except.ok ⟨"w4", []⟩, none, Except.ok "cached", none, none, none⟩]⟩

/-- Environment whose cluster is unready, for the C4 witness. -/
def c4Env : ReconcileEnv :=
  ⟨Except.ok c4Work, Except.ok "member1", Except.ok ⟨"member1", false, false⟩,
   none, fun _ => none⟩

/-- Concrete instance of the C4 theorem: an unready cluster stops the apply
path before any manifest is pushed. -/
theorem reconcile_notReady_noSync_witness :
    Reconcile c4Env
      = emptyOutcome (some (clusterNotReadyMsg ⟨"member1", false, false⟩)) :=
  reconcile_notReady_noSync c4Env c4Work "member1" ⟨"member1", false, false⟩
    rfl rfl rfl rfl rfl

/-- Claim C5: a deletion-marked Work whose cluster is unready but itself
terminating skips teardown entirely — no remote delete is issued — and goes
straight to finalizer removal. -/
theorem reconcile_terminating_bypass (env : ReconcileEnv) (work : Work)
    (cn : String) (cluster : Cluster)
    (h1 : env.getWork = Except.ok work)
    (h2 : work.deletionTimestampSet = true)
    (h3 : env.clusterName = Except.ok cn)
    (h4 : env.getCluster = Except.ok cluster)
    (h5 : cluster.ready = false)
    (h6 : cluster.deletionTimestampSet = true) :
    Reconcile env =
      ⟨(removeFinalizer env.finalizerUpdateErr work).err, false, [], [], none,
       true, (removeFinalizer env.finalizerUpdateErr work).updateIssued⟩ := by
  unfold Reconcile
  rw [h1, h3, h4]
  simp [h2, h5, h6]

/-- Deletion-marked Work with a manifest and the finalizer, for the C5
witness. -/
def c5Work : Work :=
  ⟨"karmada-es-member1", "demo", true, [executionControllerFinalizer], [],
   [⟨Except.ok ⟨"w5", []⟩, none, Except.ok "cached", none, none, none⟩]⟩

/-- Environment whose cluster is unready and terminating, for the C5
witness. -/
def c5Env : ReconcileEnv :=
  ⟨Except.ok c5Work, Except.ok "member1", Except.ok ⟨"member1", false, true⟩,
   none, fun _ => none⟩

/-- Concrete instance of the C5 theorem: the unready-but-terminating cluster
bypass removes the finalizer without issuing any remote delete. -/
theorem reconcile_terminating_bypass_witness :
    Reconcile c5Env =
      ⟨(removeFinalizer c5Env.finalizerUpdateErr c5Work).err, false, [], [], none,
       true, (removeFinalizer c5Env.finalizerUpdateErr c5Work).updateIssued⟩ :=
  reconcile_terminating_bypass c5Env c5Work "member1" ⟨"member1", false, true⟩
    rfl rfl rfl rfl rfl rfl

/-- Claim C8: when loading the Work fails with NotFound, Reconcile succeeds
with no error, no requeue and no side effect; any other load error is
returned to the caller with no side effect. -/
theorem reconcile_work_gone (env : ReconcileEnv) (e : ApiError)
    (h : env.getWork = Except.error e) :
    (e.notFound = true → Reconcile env = emptyOutcome none)
    ∧ (e.notFound = false → Reconcile env = emptyOutcome (some e.msg)) := by
  constructor <;> intro hnf <;>
    · unfold Reconcile
      rw [h]
      simp [hnf]

/-- Environment whose Work load fails with NotFound, for the C8 witness. -/
def c8Env : ReconcileEnv :=
  ⟨Except.error ⟨true, false, "works.v1alpha1 not found"⟩, Except.ok "member1",
   Except.ok ⟨"member1", true, false⟩, none, fun _ => none⟩

/-- Concrete instance of the C8 theorem: a NotFound Work load yields success
with no error, no requeue and no side effects. -/
theorem reconcile_work_gone_witness :
    ((ApiError.mk true false "works.v1alpha1 not found").notFound = true →
      Reconcile c8Env = emptyOutcome none)
    ∧ ((ApiError.mk true false "works.v1alpha1 not found").notFound = false →
      Reconcile c8Env
        = emptyOutcome (some (ApiError.mk true false "works.v1alpha1 not found").msg)) :=
  reconcile_work_gone c8Env ⟨true, false, "works.v1alpha1 not found"⟩ rfl

lemma tryDeleteWorkload_cons_ok (c : String) (x : ManifestEnv)
    (rest : List ManifestEnv) (wl : Workload)
    (hu : x.unmarshal = Except.ok wl) (hde : x.deleteErr = none) :
    tryDeleteWorkload c (x :: rest)
      = (RemoteOp.delete c wl :: (tryDeleteWorkload c rest).1,
         (tryDeleteWorkload c rest).2) := by
  conv_lhs => rw [tryDeleteWorkload]
  rw [hu, hde]

/-- Claim C10: in the teardown path the first failing manifest (bad bytes or
a failing remote delete) stops tryDeleteWorkload at once — the result does
not depend on the manifests after it and an error is returned — and in that
situation Reconcile neither reaches removeFinalizer nor issues a finalizer
update; by contrast the apply loop continues past a failing manifest and
still processes its successors. -/
theorem tryDeleteWorkload_aborts (c : String) (ms1 ms2 : List ManifestEnv)
    (m : ManifestEnv)
    (h1 : ∀ x ∈ ms1, deleteStepFailsB x = false)
    (h2 : deleteStepFailsB m = true) :
    tryDeleteWorkload c (ms1 ++ m :: ms2) = tryDeleteWorkload c (ms1 ++ [m])
    ∧ (∃ e, (tryDeleteWorkload c (ms1 ++ m :: ms2)).2 = some e)
    ∧ (∀ l, (applyLoop c l (m :: ms2)).1
          = (syncManifestStep c l m).1 ++ (applyLoop c l ms2).1)
    ∧ (∀ env work cluster, env.getWork = Except.ok work →
        work.deletionTimestampSet = true →
        env.clusterName = Except.ok c → env.getCluster = Except.ok cluster →
        cluster.ready = true → work.manifests = ms1 ++ m :: ms2 →
        (Reconcile env).removeFinalizerCalled = false ∧
        (Reconcile env).finalizerUpdateIssued = false ∧
        ∃ e, (Reconcile env).err = some e) := by
  have key : ∀ ms : List ManifestEnv, (∀ x ∈ ms, deleteStepFailsB x = false) →
      tryDeleteWorkload c (ms ++ m :: ms2) = tryDeleteWorkload c (ms ++ [m])
      ∧ ∃ e, (tryDeleteWorkload c (ms ++ m :: ms2)).2 = some e := by
    intro ms
    induction ms with
    | nil =>
      intro _
      cases hu : m.unmarshal with
      | error e =>
        refine ⟨?_, e, ?_⟩ <;> simp [tryDeleteWorkload, hu]
      | ok wl =>
        unfold deleteStepFailsB at h2
        rw [hu] at h2
        simp only [Option.isSome_iff_exists] at h2
        obtain ⟨e, he⟩ := h2
        refine ⟨?_, e, ?_⟩ <;> simp [tryDeleteWorkload, hu, he]
    | cons x rest ih =>
      intro hall
      have hx := hall x (List.mem_cons_self x rest)
      have hrest := fun y hy => hall y (List.mem_cons_of_mem x hy)
      obtain ⟨ih1, e, ih2⟩ := ih hrest
      unfold deleteStepFailsB at hx
      cases hu : x.unmarshal with
      | error e2 =>
        rw [hu] at hx
        simp at hx
      | ok wl =>
        rw [hu] at hx
        cases hdd : x.deleteErr with
        | some z =>
          rw [hdd] at hx
          simp at hx
        | none =>
          constructor
          · rw [List.cons_append, List.cons_append,
              tryDeleteWorkload_cons_ok c x _ wl hu hdd,
              tryDeleteWorkload_cons_ok c x _ wl hu hdd, ih1]
          · rw [List.cons_append, tryDeleteWorkload_cons_ok c x _ wl hu hdd]
            exact ⟨e, ih2⟩
  obtain ⟨keq, e, kerr⟩ := key ms1 h1
  refine ⟨keq, ⟨e, kerr⟩, ?_, ?_⟩
  · intro l
    simp only [applyLoop]
    cases hstep : (syncManifestStep c l m).2 <;> simp [hstep]
  · intro env work cluster hgw hdel hcn hgc hready hman
    have he2 : (tryDeleteWorkload c work.manifests).2 = some e := by
      rw [hman]
      exact kerr
    unfold Reconcile
    rw [hgw, hcn, hgc]
    simp [hdel, hready, he2]

/-- Teardown sequence for the C10 witness: one deletable manifest, then one
whose bytes fail to deserialize, then a trailing deletable manifest. -/
def c10Ok : ManifestEnv :=
  ⟨Except.ok ⟨"w10a", []⟩, none, Except.ok "cached", none, none, none⟩

/-- The malformed middle manifest of the C10 witness. -/
def c10Bad : ManifestEnv :=
  ⟨Except.error "invalid character", none, Except.ok "cached", none, none, none⟩

/-- The trailing manifest of the C10 witness, never reached by teardown. -/
def c10Tail : ManifestEnv :=
  ⟨Except.ok ⟨"w10c", []⟩, none, Except.ok "cached", none, none, none⟩

/-- Concrete instance of the C10 theorem: with the middle manifest
malformed, teardown stops there, ignores the trailing manifest and fails,
while the apply loop would continue past the malformed manifest. -/
theorem tryDeleteWorkload_aborts_witness :
    tryDeleteWorkload "member1" ([c10Ok] ++ c10Bad :: [c10Tail])
      = tryDeleteWorkload "member1" ([c10Ok] ++ [c10Bad])
    ∧ (∃ e, (tryDeleteWorkload "member1" ([c10Ok] ++ c10Bad :: [c10Tail])).2 = some e)
    ∧ (∀ l, (applyLoop "member1" l (c10Bad :: [c10Tail])).1
          = (syncManifestStep "member1" l c10Bad).1
              ++ (applyLoop "member1" l [c10Tail]).1)
    ∧ (∀ env work cluster, env.getWork = Except.ok work →
        work.deletionTimestampSet = true →
        env.clusterName = Except.ok "member1" →
        env.getCluster = Except.ok cluster →
        cluster.ready = true → work.manifests = [c10Ok] ++ c10Bad :: [c10Tail] →
        (Reconcile env).removeFinalizerCalled = false ∧
        (Reconcile env).finalizerUpdateIssued = false ∧
        ∃ e, (Reconcile env).err = some e) :=
  tryDeleteWorkload_aborts "member1" [c10Ok] [c10Tail] c10Bad
    (by intro x hx; simp only [List.mem_singleton] at hx; subst hx; rfl) rfl

end Execution
